import Mathlib

/-
Verification of the client-side synchronization engine of the
smart-bookmark-app repository (src/app/layout.tsx, BookmarkClient, plus the
initial fetch in src/app/dashboard/page.tsx).

Modelling conventions:
* The React state `bookmarks` (the Local Collection Store) is a
  `List Bookmark`; every `setBookmarks` updater becomes a pure function on
  that list.
* The `created_at` column is a Postgres TIMESTAMPTZ used only as a
  chronological sort key (the queries order by it); it is modelled as `Nat`.
  All other fields keep their source `string` type.
* Platform primitives that the source delegates to are made explicit
  parameters: `validURL` stands for success of the WHATWG URL constructor
  (`new URL(trimmedUrl)` not throwing), and the Supabase round trips are
  oracles (`CreateRemote`, `DeleteRemote`, the rollback refetch).
-/

/-- Helper for the trim model: drops the leading whitespace characters of a
character list. -/
def dropLeadingWs : List Char → List Char
  | [] => []
  | c :: cs => if c.isWhitespace then dropLeadingWs cs else c :: cs

/-- Model of the JavaScript platform primitive `String.prototype.trim` used at
src/app/layout.tsx lines 102-103: strips leading and trailing whitespace. -/
def jsTrim (s : String) : String :=
  ⟨(dropLeadingWs (dropLeadingWs s.data).reverse).reverse⟩

/-- The record of src/app/layout.tsx lines 23-29 (`type Bookmark`). -/
structure Bookmark where
  id : String
  user_id : String
  title : String
  url : String
  created_at : Nat
deriving DecidableEq, Repr

/-- The INSERT feed handler of the realtime subscription, src/app/layout.tsx
lines 65-72: `if (prev.some((b) => b.id === newBookmark.id)) return prev;
return [newBookmark, ...prev];`. -/
def insertFeed (prev : List Bookmark) (newBookmark : Bookmark) : List Bookmark :=
  if prev.any (fun b => b.id == newBookmark.id) then prev
  else newBookmark :: prev

/-- The store update `prev.filter((b) => b.id !== id)`, inlined identically at
two places in the source: the DELETE feed handler (lines 82-87, with
`payload.old.id`) and the optimistic removal in `handleDelete` (line 142). -/
def removeById (id : String) (prev : List Bookmark) : List Bookmark :=
  prev.filter (fun b => b.id != id)

/-- The DELETE feed handler of the realtime subscription, src/app/layout.tsx
lines 82-87. -/
def deleteFeed (prev : List Bookmark) (oldId : String) : List Bookmark :=
  removeById oldId prev

/-- Result of the remote insert round trip
`supabase.from("bookmarks").insert(...).select().single()`: either the
authoritative row assigned by the server or an error message. -/
inductive CreateRemote where
  | ok (data : Bookmark)
  | err (msg : String)
deriving DecidableEq, Repr

/-- Observable outcome of `handleAddBookmark`: the `bookmarks` state, the
`error` state (`setError`), and whether the remote insert was issued. -/
structure CreateOutcome where
  bookmarks : List Bookmark
  error : Option String
  remoteCalled : Bool
deriving DecidableEq, Repr

/-- Embedding of `handleAddBookmark`, src/app/layout.tsx lines 97-136.
`validURL` models success of `new URL(trimmedUrl)`; `remote` models the
Supabase insert, which receives the trimmed title and url. On insert error the
message is surfaced and the store untouched; on success the returned row is
prepended (`[data, ...prev]`, line 130 — note: with no duplicate-id guard). -/
def handleAddBookmark (validURL : String → Bool)
    (remote : String → String → CreateRemote)
    (prev : List Bookmark) (title url : String) : CreateOutcome :=
  let trimmedUrl := jsTrim url
  let trimmedTitle := jsTrim title
  if trimmedTitle == "" || trimmedUrl == "" then
    { bookmarks := prev, error := some "Both title and URL are required.",
      remoteCalled := false }
  else if !validURL trimmedUrl then
    { bookmarks := prev,
      error := some "Please enter a valid URL (e.g. https://example.com).",
      remoteCalled := false }
  else
    match remote trimmedTitle trimmedUrl with
    | CreateRemote.err m =>
      { bookmarks := prev, error := some m, remoteCalled := true }
    | CreateRemote.ok data =>
      { bookmarks := data :: prev, error := none, remoteCalled := true }

/-- Result of the remote delete round trip
`supabase.from("bookmarks").delete().eq("id", id)`. -/
inductive DeleteRemote where
  | ok
  | err (msg : String)
deriving DecidableEq, Repr

/-- Observable outcome of `handleDelete`: the `bookmarks` state and the
`error` state. -/
structure DeleteOutcome where
  bookmarks : List Bookmark
  error : Option String
deriving DecidableEq, Repr

/-- Embedding of `handleDelete`, src/app/layout.tsx lines 138-160. The
optimistic removal is applied first; the remote delete result is then
inspected. On failure the error message is surfaced and the rollback refetch
(`select("*").order("created_at", descending)`, rows scoped to the owner by
row level security) is consulted: `refetch` is `some data` when the query
returned data and `none` otherwise, and the source replaces the store only
under `if (data)`. -/
def handleDelete (remote : DeleteRemote) (refetch : Option (List Bookmark))
    (prev : List Bookmark) (id : String) : DeleteOutcome :=
  let optimistic := removeById id prev
  match remote with
  | DeleteRemote.ok => { bookmarks := optimistic, error := none }
  | DeleteRemote.err m =>
    match refetch with
    | some data => { bookmarks := data, error := some m }
    | none => { bookmarks := optimistic, error := some m }

/-- The store sequence is ordered newest `created_at` first. -/
abbrev sortedDesc (s : List Bookmark) : Prop :=
  s.Pairwise (fun a b => b.created_at ≤ a.created_at)

/-- No two entries of the store share an `id`. -/
abbrev uniqueIds (s : List Bookmark) : Prop :=
  (s.map (fun b => b.id)).Nodup

/-- The store operations quantified over by the sort-invariant claim: a
successful create prepends the server-returned row (src/app/layout.tsx line
130), and a resync replaces the whole store with a refetched list (lines
152-156; the rollback refetch and the initial dashboard fetch,
src/app/dashboard/page.tsx lines 9-12, both order by `created_at`
descending). -/
inductive StoreOp where
  | createOk (item : Bookmark)
  | resync (items : List Bookmark)

/-- Effect of one `StoreOp` on the store. -/
def applyOp (s : List Bookmark) : StoreOp → List Bookmark
  | StoreOp.createOk item => item :: s
  | StoreOp.resync items => items

/-- Effect of a sequence of `StoreOp`s, first operation first. -/
def applyOps (s : List Bookmark) (ops : List StoreOp) : List Bookmark :=
  ops.foldl applyOp s

/-- Side conditions the environment guarantees for a `StoreOp`: the server
assigns a create's `created_at` at least as new as everything already shown,
and a refetched list arrives ordered `created_at` descending. -/
def validOp (s : List Bookmark) : StoreOp → Prop
  | StoreOp.createOk item => ∀ b ∈ s, b.created_at ≤ item.created_at
  | StoreOp.resync items => sortedDesc items

/-- Every operation of the sequence satisfies its side condition at the state
it is applied to. -/
def validSeq : List Bookmark → List StoreOp → Prop
  | _, [] => True
  | s, op :: ops => validOp s op ∧ validSeq (applyOp s op) ops

/-- Concrete row for the scenarios of spec section 8 (the item the server
returns for Create("Docs", "https://example.com/docs")). -/
def itemA1 : Bookmark :=
  { id := "a1", user_id := "u1", title := "Docs",
    url := "https://example.com/docs", created_at := 1 }

/-- Concrete URL-validity oracle: accepts exactly the scenario url. -/
def urlOk : String → Bool :=
  fun u => u == "https://example.com/docs"

/-- Concrete remote insert oracle: the server commits and returns `itemA1`. -/
def remoteA1 : String → String → CreateRemote :=
  fun _ _ => CreateRemote.ok itemA1

/-- Concrete row owned by a different user than the session owner "me". -/
def itemOther : Bookmark :=
  { id := "b2", user_id := "intruder", title := "X",
    url := "https://x.example", created_at := 2 }

/-- C1: the reconciliation rule is not shared by both channels. The code bug
evaluated at spec section 8's scenario item: with the direct response applied
first the feed echo is a no-op (one copy of id "a1"), but with the feed echo
applied first the direct remote-response application (`[data, ...prev]`,
src/app/layout.tsx line 130, which has no apply-if-absent guard) leaves two
copies, so the two arrival orders do not converge. -/
theorem c1_insert_channels_diverge :
    insertFeed (handleAddBookmark urlOk remoteA1 [] "Docs"
      "https://example.com/docs").bookmarks itemA1 = [itemA1] ∧
    (handleAddBookmark urlOk remoteA1 (insertFeed [] itemA1) "Docs"
      "https://example.com/docs").bookmarks = [itemA1, itemA1] := by
  decide

/-- C2: the uniqueness invariant fails on a reachable state. Starting from the
duplicate-free empty store, a feed Insert of `itemA1` followed by a successful
create whose response returns that same row (the echo-before-response race)
leaves two entries with id "a1". -/
theorem c2_uniqueness_violated :
    uniqueIds ([] : List Bookmark) ∧ uniqueIds (insertFeed [] itemA1) ∧
    ¬ uniqueIds (handleAddBookmark urlOk remoteA1 (insertFeed [] itemA1)
      "Docs" "https://example.com/docs").bookmarks := by
  decide

/-- C3 counterexample: an Insert event whose `user_id` ("intruder") differs
from the session owner ("me") does mutate the store when processed by the
INSERT feed handler — the handlers contain no ownership check, so the claim
that the engine itself never lets such an event mutate the store is false. -/
theorem c3_counterexample :
    itemOther.user_id ≠ "me" ∧ insertFeed [] itemOther ≠ [] := by
  decide

/-- C3 amended: ownership filtering lives only in the server-side subscription
filter (`user_id=eq.<owner>`, src/app/layout.tsx lines 63 and 80); the
handlers themselves apply events regardless of `user_id`: a mismatched-owner
Insert whose id is absent is inserted at head, and a mismatched-owner Delete
removes the matching entry. -/
theorem c3_handlers_ignore_ownership (owner : String) (nb : Bookmark)
    (s : List Bookmark) (howner : nb.user_id ≠ owner)
    (habsent : ∀ b ∈ s, b.id ≠ nb.id) :
    insertFeed s nb = nb :: s ∧ deleteFeed (nb :: s) nb.id = s := by
  have hany : s.any (fun b => b.id == nb.id) = false := by
    simp only [List.any_eq_false]
    intro b hb
    simpa using habsent b hb
  have hself : removeById nb.id s = s := by
    simp only [removeById, List.filter_eq_self]
    intro b hb
    simpa using habsent b hb
  constructor
  · simp [insertFeed, hany]
  · show removeById nb.id (nb :: s) = s
    simp only [removeById, List.filter_cons, bne_self_eq_false, if_false]
    simpa [removeById] using hself

/-- C3 amended, witness at a concrete input. -/
theorem c3_handlers_ignore_ownership_witness :
    insertFeed [] itemOther = [itemOther] ∧
    deleteFeed [itemOther] itemOther.id = [] :=
  c3_handlers_ignore_ownership "me" itemOther [] (by decide) (by decide)

/-- C4: when the trimmed title or trimmed url is empty, or the trimmed url is
rejected by the URL constructor, `handleAddBookmark` surfaces one of the two
validation messages, issues no remote call, and leaves the store unchanged. -/
theorem c4_validation_failure_is_local (validURL : String → Bool)
    (remote : String → String → CreateRemote) (prev : List Bookmark)
    (title url : String)
    (h : jsTrim title = "" ∨ jsTrim url = "" ∨ validURL (jsTrim url) = false) :
    (handleAddBookmark validURL remote prev title url).remoteCalled = false ∧
    (handleAddBookmark validURL remote prev title url).bookmarks = prev ∧
    ((handleAddBookmark validURL remote prev title url).error =
        some "Both title and URL are required." ∨
      (handleAddBookmark validURL remote prev title url).error =
        some "Please enter a valid URL (e.g. https://example.com).") := by
  by_cases hc : (jsTrim title == "" || jsTrim url == "") = true
  · simp [handleAddBookmark, hc]
  · have hv : validURL (jsTrim url) = false := by
      rcases h with h | h | h
      · exact absurd (by simp [h]) hc
      · exact absurd (by simp [h]) hc
      · exact h
    simp [handleAddBookmark, hc, hv]

/-- C4, witness at a concrete input. -/
theorem c4_validation_failure_is_local_witness :
    (handleAddBookmark (fun _ => false) (fun _ _ => CreateRemote.err "e") []
      "t" "u").remoteCalled = false ∧
    (handleAddBookmark (fun _ => false) (fun _ _ => CreateRemote.err "e") []
      "t" "u").bookmarks = [] ∧
    ((handleAddBookmark (fun _ => false) (fun _ _ => CreateRemote.err "e") []
        "t" "u").error = some "Both title and URL are required." ∨
      (handleAddBookmark (fun _ => false) (fun _ _ => CreateRemote.err "e") []
        "t" "u").error =
        some "Please enter a valid URL (e.g. https://example.com).") :=
  c4_validation_failure_is_local (fun _ => false)
    (fun _ _ => CreateRemote.err "e") [] "t" "u" (Or.inr (Or.inr rfl))

/-- C5: once validation passes, a failed remote insert surfaces its message
and leaves the store exactly as before the call, and a successful one inserts
exactly the returned authoritative row at the head. -/
theorem c5_create_atomicity (validURL : String → Bool)
    (remote : String → String → CreateRemote) (prev : List Bookmark)
    (title url : String)
    (ht : jsTrim title ≠ "") (hu : jsTrim url ≠ "")
    (hv : validURL (jsTrim url) = true) :
    (∀ m, remote (jsTrim title) (jsTrim url) = CreateRemote.err m →
      (handleAddBookmark validURL remote prev title url).error = some m ∧
      (handleAddBookmark validURL remote prev title url).bookmarks = prev) ∧
    (∀ data, remote (jsTrim title) (jsTrim url) = CreateRemote.ok data →
      (handleAddBookmark validURL remote prev title url).bookmarks =
        data :: prev ∧
      (handleAddBookmark validURL remote prev title url).error = none) := by
  have hc : (jsTrim title == "" || jsTrim url == "") = false := by
    simp [ht, hu]
  constructor
  · intro m hm
    simp [handleAddBookmark, hc, hv, hm]
  · intro data hd
    simp [handleAddBookmark, hc, hv, hd]

/-- C5, witness at a concrete input (a failing remote insert). -/
theorem c5_create_atomicity_witness :
    (handleAddBookmark (fun _ => true) (fun _ _ => CreateRemote.err "boom") []
      "t" "u").error = some "boom" ∧
    (handleAddBookmark (fun _ => true) (fun _ _ => CreateRemote.err "boom") []
      "t" "u").bookmarks = [] :=
  (c5_create_atomicity (fun _ => true) (fun _ _ => CreateRemote.err "boom") []
    "t" "u" (by decide) (by decide) rfl).1 "boom" rfl

/-- C6: the optimistic removal is applied before the remote result is
inspected; a successful remote delete adds no further store mutation beyond
that removal, and a failed one surfaces the error and replaces the store with
the refetched authoritative list. -/
theorem c6_delete_flow (prev : List Bookmark) (id m : String)
    (refetch : Option (List Bookmark)) (data : List Bookmark) :
    handleDelete DeleteRemote.ok refetch prev id =
      { bookmarks := removeById id prev, error := none } ∧
    handleDelete (DeleteRemote.err m) (some data) prev id =
      { bookmarks := data, error := some m } :=
  ⟨rfl, rfl⟩

/-- C7: starting from a store sorted by `created_at` descending, any sequence
of successful creates (server timestamp at least as new as everything present,
prepended at head) and resyncs (replacement by a descending-sorted list)
leaves the store sorted by `created_at` descending. -/
theorem c7_sort_invariant (s : List Bookmark) (ops : List StoreOp)
    (hs : sortedDesc s) (hv : validSeq s ops) :
    sortedDesc (applyOps s ops) := by
  induction ops generalizing s with
  | nil => exact hs
  | cons op ops ih =>
    obtain ⟨h1, h2⟩ := hv
    have hstep : sortedDesc (applyOp s op) := by
      cases op with
      | createOk item => exact List.Pairwise.cons h1 hs
      | resync items => exact h1
    exact ih (applyOp s op) hstep h2

/-- C7, witness: a create of a newer item over a singleton store, then a
resync with a descending-sorted list. -/
theorem c7_sort_invariant_witness :
    sortedDesc (applyOps [itemA1]
      [StoreOp.createOk itemOther, StoreOp.resync [itemOther, itemA1]]) :=
  c7_sort_invariant [itemA1]
    [StoreOp.createOk itemOther, StoreOp.resync [itemOther, itemA1]]
    (by decide)
    (by refine ⟨?_, ?_, trivial⟩ <;> simp only [validOp, applyOp] <;> decide)

/-- C8: removing an id that occurs nowhere in the store is a no-op — it does
not error (the operation is a total function) and leaves the sequence equal —
for both the optimistic removal and the DELETE feed handler, which share the
same filter. -/
theorem c8_remove_absent_noop (i : String) (s : List Bookmark)
    (h : ∀ b ∈ s, b.id ≠ i) :
    removeById i s = s ∧ deleteFeed s i = s := by
  have hr : removeById i s = s := by
    simp only [removeById, List.filter_eq_self]
    intro b hb
    simpa using h b hb
  exact ⟨hr, hr⟩

/-- C8, witness at a concrete input. -/
theorem c8_remove_absent_noop_witness :
    removeById "zz" [itemA1] = [itemA1] ∧ deleteFeed [itemA1] "zz" = [itemA1] :=
  c8_remove_absent_noop "zz" [itemA1] (by decide)

/-- C9: the remote insert is issued exactly when the trimmed title and trimmed
url are non-empty and the trimmed url is accepted by the URL constructor —
there is no scheme restriction beyond the constructor's acceptance, so any
accepted absolute URL (javascript:, data:, ...) reaches the remote call. -/
theorem c9_validation_exactly_url_constructor (validURL : String → Bool)
    (remote : String → String → CreateRemote) (prev : List Bookmark)
    (title url : String) :
    (handleAddBookmark validURL remote prev title url).remoteCalled = true ↔
      (jsTrim title ≠ "" ∧ jsTrim url ≠ "" ∧ validURL (jsTrim url) = true) := by
  by_cases h1 : jsTrim title = ""
  · simp [handleAddBookmark, h1]
  · by_cases h2 : jsTrim url = ""
    · simp [handleAddBookmark, h1, h2]
    · by_cases h3 : validURL (jsTrim url) = true
      · cases hr : remote (jsTrim title) (jsTrim url) <;>
          simp [handleAddBookmark, h1, h2, h3, hr]
      · simp [handleAddBookmark, h1, h2, h3]

/-- C10: when the remote delete fails and the rollback refetch returns no
data, the store keeps its post-optimistic-removal value — the deleted entry is
not restored, nothing is retried, and the store is not replaced. -/
theorem c10_failed_resync_keeps_removal (prev : List Bookmark)
    (id m : String) :
    handleDelete (DeleteRemote.err m) none prev id =
      { bookmarks := removeById id prev, error := some m } :=
  rfl
